import Mathlib

/-!
Shallow embedding of the CVPerfect backend (FastAPI + SQLAlchemy) route
handlers, translated from:
  backend/app/routers/auth.py
  backend/app/api/resume.py
The database is modelled as in-memory lists of rows; each handler is a pure
function from its request data, the authenticated user, the database state
(and, where the source reads the clock, the current time in seconds) to an
HTTP result, the new database state, and the list of external AI / background
calls it performed. External SaaS functions (Gemini scorer, cover-letter
generator, analyzer) are passed in as function parameters and their
invocations are recorded in the calls list.
-/

namespace CVPerfect

/-- Subscription tiers, from app.models.user.SubscriptionType as used by the
handlers (FREE, ONE_TIME, PRO). -/
inductive SubscriptionType where
  | FREE
  | ONE_TIME
  | PRO
deriving DecidableEq, Repr

/-- User row. Fields are those the embedded handlers read or write:
id, email, password (bcrypt hash), full_name, subscription_type,
remaining_enhancements (an integer: validate_developer_code writes -1). -/
structure User where
  id : Nat
  email : String
  password : String
  full_name : String
  subscription_type : SubscriptionType
  remaining_enhancements : Int
deriving DecidableEq, Repr

/-- Resume row, from app.models.resume.Resume as used by the handlers. -/
structure Resume where
  id : Nat
  user_id : Nat
  original_content : String
  job_description : Option String
  linkedin_url : Option String
  enhanced_content : Option String
  score : Option Int
  feedback : Option String
  learning_suggestions : Option String
  cover_letter : Option String
  created_at : Nat
deriving DecidableEq, Repr

/-- ResumeVersion row: append-only snapshot created on upload. -/
structure ResumeVersion where
  resume_id : Nat
  content : String
  version_number : Nat
deriving DecidableEq, Repr

/-- Action types of the analytics log, from app.models.analytics.ActionType. -/
inductive ActionType where
  | RESUME_UPLOAD
  | RESUME_ENHANCE
  | RESUME_ANALYZE
  | COVER_LETTER_GENERATE
  | RESUME_DOWNLOAD
deriving DecidableEq, Repr

/-- Analytics row: append-only event log. The JSON metadata dict is modelled
as an association list of string keys to string values. -/
structure Analytics where
  user_id : Nat
  resume_id : Option Nat
  action_type : ActionType
  metadata : List (String × String)
  created_at : Nat
deriving DecidableEq, Repr

/-- The relational store: one list per table, plus the autoincrement counter
for resume primary keys (db.refresh(resume) exposes it after commit). -/
structure DB where
  users : List User
  resumes : List Resume
  versions : List ResumeVersion
  analytics : List Analytics
  nextResumeId : Nat
deriving DecidableEq, Repr

/-- HTTP error raised by a handler (fastapi.HTTPException). -/
structure HTTPException where
  status_code : Nat
  detail : String
deriving DecidableEq, Repr

/-- Python str() of an HTTPException, as interpolated by the broad
except-Exception handlers: "status_code: detail". -/
def strOfExc (e : HTTPException) : String :=
  toString e.status_code ++ ": " ++ e.detail

/-- Python truthiness of an optional string: None and the empty string are
falsy. Used for `a or b` and `bool(x)` on optional text fields. -/
def strOptTruthy : Option String → Bool
  | none => false
  | some s => !(s == "")

/-- Python `a or b` on two optional strings. -/
def pyOrStr (a b : Option String) : Option String :=
  if strOptTruthy a then a else b

/-- Python `a or b` where a is an optional string and b a string
(resume.enhanced_content or resume.original_content). -/
def pyOrStrS (a : Option String) (b : String) : String :=
  match a with
  | none => b
  | some s => if s == "" then b else s

/-- Replace every user row whose id matches u.id by u: the effect of
db.commit() after mutating an ORM-tracked User object. -/
def DB.setUser (db : DB) (u : User) : DB :=
  { db with users := db.users.map (fun x => if x.id == u.id then u else x) }

/-- Replace every resume row whose id matches r.id by r: the effect of
db.commit() after mutating an ORM-tracked Resume object. -/
def DB.setResume (db : DB) (r : Resume) : DB :=
  { db with resumes := db.resumes.map (fun x => if x.id == r.id then r else x) }

/-- Append an analytics row (db.add + commit). -/
def DB.addAnalytics (db : DB) (a : Analytics) : DB :=
  { db with analytics := db.analytics ++ [a] }

/-- db.query(User).filter(User.id == uid).first() -/
def findUserById (db : DB) (uid : Nat) : Option User :=
  (db.users.filter (fun u => u.id == uid)).head?

/-- db.query(User).filter(User.email == email).first() -/
def findUserByEmail (db : DB) (email : String) : Option User :=
  (db.users.filter (fun u => u.email == email)).head?

/-- db.query(Resume).filter(Resume.id == rid, Resume.user_id == uid).first():
the ownership-scoped resume lookup every resume endpoint uses. -/
def findResumeFor (db : DB) (rid : Nat) (uid : Nat) : Option Resume :=
  (db.resumes.filter (fun r => r.id == rid && r.user_id == uid)).head?

/-! ## Authentication (backend/app/routers/auth.py) -/

/-- ACCESS_TOKEN_EXPIRE_MINUTES = 30. -/
def ACCESS_TOKEN_EXPIRE_MINUTES : Nat := 30

/-- Stands for the JWT_SECRET_KEY environment value read at import time. -/
def SECRET_KEY : String := "JWT_SECRET_KEY-env-value"

/-- Claims carried by a token: the "sub" entry (stringified user id, modelled
as the id itself), the optional "type" entry (used by password-reset tokens),
and the "exp" timestamp in seconds added by create_access_token. -/
structure JWTClaims where
  sub : Option Nat := none
  typ : Option String := none
  exp : Nat := 0
deriving DecidableEq, Repr

/-- A signed token: jwt.encode binds the claims to the signing key; decoding
with a different key fails (invalid signature). -/
structure JWT where
  key : String
  claims : JWTClaims
deriving DecidableEq, Repr

/-- jwt.encode(to_encode, key, algorithm=HS256). -/
def jwtEncode (claims : JWTClaims) (key : String) : JWT :=
  ⟨key, claims⟩

/-- jwt.decode(token, key, algorithms=[HS256]) at time now: succeeds iff the
signature key matches and the token is not yet expired, otherwise raises
(modelled as none). -/
def jwtDecode (t : JWT) (key : String) (now : Nat) : Option JWTClaims :=
  if t.key = key ∧ now < t.claims.exp then some t.claims else none

/-- Model of passlib bcrypt hashing (pwd_context.hash). -/
def get_password_hash (password : String) : String :=
  "bcrypt$" ++ password

/-- Model of passlib bcrypt verification (pwd_context.verify): a password
verifies against exactly its own hash. -/
def verify_password (plain_password : String) (hashed_password : String) : Bool :=
  hashed_password == get_password_hash plain_password

/-- create_access_token(data, expires_delta): expiry is now + expires_delta
when given, else now + 15 minutes; expires_delta in seconds. -/
def create_access_token (data : JWTClaims) (expires_delta : Option Nat)
    (now : Nat) : JWT :=
  let expire := match expires_delta with
    | some d => now + d
    | none => now + 15 * 60
  jwtEncode { data with exp := expire } SECRET_KEY

/-- The single 401 raised throughout get_current_user. -/
def credentials_exception : HTTPException :=
  ⟨401, "Could not validate credentials"⟩

/-- get_current_user: decode the bearer token, extract the "sub" claim, look
the user up by id; any failure raises the credentials exception (401). -/
def get_current_user (token : JWT) (db : DB) (now : Nat) :
    Except HTTPException User :=
  match jwtDecode token SECRET_KEY now with
  | none => .error credentials_exception
  | some payload =>
    match payload.sub with
    | none => .error credentials_exception
    | some user_id =>
      match findUserById db user_id with
      | none => .error credentials_exception
      | some user => .ok user

/-- Response body of signin. -/
structure TokenOut where
  access_token : JWT
  token_type : String
deriving DecidableEq, Repr

/-- signin: authenticate by email and password, then issue a token whose
subject is the user id and whose expiry window is ACCESS_TOKEN_EXPIRE_MINUTES. -/
def signin (username password : String) (db : DB) (now : Nat) :
    Except HTTPException TokenOut :=
  match findUserByEmail db username with
  | none => .error ⟨401, "Incorrect email or password"⟩
  | some user =>
    if verify_password password user.password then
      .ok ⟨create_access_token { sub := some user.id }
            (some (ACCESS_TOKEN_EXPIRE_MINUTES * 60)) now, "bearer"⟩
    else
      .error ⟨401, "Incorrect email or password"⟩

/-- Message-only JSON body. -/
structure MessageBody where
  message : String
deriving DecidableEq, Repr

/-- reset_password: whether or not the email matches a user row, respond with
the same message; when a user exists, a reset token is created (and, per the
TODO in the source, never sent) with no effect on the database. -/
def reset_password (email : String) (db : DB) (now : Nat) : MessageBody × DB :=
  match findUserByEmail db email with
  | none =>
    (⟨"If an account exists with this email, you will receive password reset instructions"⟩, db)
  | some user =>
    let _reset_token := create_access_token
      { sub := some user.id, typ := some "password_reset" } (some (60 * 60)) now
    (⟨"If an account exists with this email, you will receive password reset instructions"⟩, db)

/-! ## Resume endpoints (backend/app/api/resume.py) -/

/-- Request body of the upload endpoint (schemas.resume.ResumeCreate as the
handler reads it). -/
structure ResumeCreate where
  content : String
  job_description : Option String
  linkedin_url : Option String
deriving DecidableEq, Repr

/-- Request body of the enhance endpoint. -/
structure ResumeEnhanceRequest where
  resume_id : Nat
  job_description : Option String
deriving DecidableEq, Repr

/-- Request body of the cover-letter endpoint. -/
structure CoverLetterRequest where
  resume_id : Nat
  job_description : String
  company_name : String
  position : String
deriving DecidableEq, Repr

/-- Response body of the score endpoint. -/
structure ScoreBody where
  score : Option Int
  feedback : Option String
  learning_suggestions : Option String
deriving DecidableEq, Repr

/-- Response body of the cover-letter endpoint. -/
structure CoverLetterBody where
  cover_letter : String
deriving DecidableEq, Repr

/-- External AI calls and queued background tasks a handler performs, in
order. -/
inductive ExtCall where
  | extractLinkedinTask (url : String) (resume_id : Nat)
  | enhanceResumeTask (resume_id : Nat) (job_description : Option String)
  | scoreResumeCall (content : String) (job_description : Option String)
  | generateCoverLetterCall (content : String) (job_description : String)
      (company_name : String) (position : String)
  | analyzeResumeCall (content : String) (job_description : Option String)
deriving DecidableEq, Repr

/-- Decidable equality of handler results. -/
instance {ε α : Type} [DecidableEq ε] [DecidableEq α] : DecidableEq (Except ε α) :=
  fun a b =>
  match a, b with
  | .error x, .error y =>
    if h : x = y then .isTrue (congrArg Except.error h)
    else .isFalse (fun hh => h (by injection hh))
  | .error _, .ok _ => .isFalse (fun hh => Except.noConfusion hh)
  | .ok _, .error _ => .isFalse (fun hh => Except.noConfusion hh)
  | .ok x, .ok y =>
    if h : x = y then .isTrue (congrArg Except.ok h)
    else .isFalse (fun hh => h (by injection hh))

/-- Observable outcome of one handler invocation: the HTTP result, the
database state after the request, and the external calls performed. -/
structure HandlerOut (α : Type) where
  result : Except HTTPException α
  db : DB
  calls : List ExtCall
deriving DecidableEq, Repr

/-- upload_resume: reject FREE with 403; reject ONE_TIME with an exhausted
counter with 403; otherwise create the resume row, its version-1 snapshot and
an analytics event, and queue LinkedIn extraction when a URL was given. The
authenticated user row is never written. -/
def upload_resume (resume_data : ResumeCreate) (current_user : User) (db : DB)
    (now : Nat) : HandlerOut Resume :=
  if current_user.subscription_type = SubscriptionType.FREE then
    { result := .error ⟨403, "Free users cannot upload resumes. Please upgrade your subscription."⟩,
      db := db, calls := [] }
  else if current_user.subscription_type = SubscriptionType.ONE_TIME ∧
      current_user.remaining_enhancements ≤ 0 then
    { result := .error ⟨403, "No remaining enhancements. Please purchase more or upgrade to Pro."⟩,
      db := db, calls := [] }
  else
    let rid := db.nextResumeId
    let resume : Resume :=
      { id := rid, user_id := current_user.id,
        original_content := resume_data.content,
        job_description := resume_data.job_description,
        linkedin_url := resume_data.linkedin_url,
        enhanced_content := none, score := none, feedback := none,
        learning_suggestions := none, cover_letter := none, created_at := now }
    let version : ResumeVersion :=
      { resume_id := rid, content := resume_data.content, version_number := 1 }
    let analytics : Analytics :=
      { user_id := current_user.id, resume_id := some rid,
        action_type := .RESUME_UPLOAD,
        metadata := [("has_job_description", toString (strOptTruthy resume_data.job_description)),
                     ("has_linkedin", toString (strOptTruthy resume_data.linkedin_url))],
        created_at := now }
    let calls := match resume_data.linkedin_url with
      | some url => if strOptTruthy (some url) then [ExtCall.extractLinkedinTask url rid] else []
      | none => []
    { result := .ok resume,
      db := { db with resumes := db.resumes ++ [resume],
                      versions := db.versions ++ [version],
                      analytics := db.analytics ++ [analytics],
                      nextResumeId := rid + 1 },
      calls := calls }

/-- enhance_resume_endpoint: look the resume up scoped by owner (404 when
absent), then gate by tier: FREE is rejected with 403; ONE_TIME with an
exhausted counter is rejected with 403, otherwise its counter is decremented
by one; then the enhancement is queued as a background task and an analytics
event is committed. -/
def enhance_resume_endpoint (request : ResumeEnhanceRequest)
    (current_user : User) (db : DB) (now : Nat) : HandlerOut Resume :=
  match findResumeFor db request.resume_id current_user.id with
  | none =>
    { result := .error ⟨404, "Resume not found"⟩, db := db, calls := [] }
  | some resume =>
    if current_user.subscription_type = SubscriptionType.FREE then
      { result := .error ⟨403, "Free users cannot enhance resumes. Please upgrade your subscription."⟩,
        db := db, calls := [] }
    else if current_user.subscription_type = SubscriptionType.ONE_TIME ∧
        current_user.remaining_enhancements ≤ 0 then
      { result := .error ⟨403, "No remaining enhancements. Please purchase more or upgrade to Pro."⟩,
        db := db, calls := [] }
    else
      let dbAfterUser :=
        if current_user.subscription_type = SubscriptionType.ONE_TIME then
          db.setUser { current_user with
            remaining_enhancements := current_user.remaining_enhancements - 1 }
        else db
      let analytics : Analytics :=
        { user_id := current_user.id, resume_id := some resume.id,
          action_type := .RESUME_ENHANCE,
          metadata := [("has_job_description", toString (strOptTruthy request.job_description))],
          created_at := now }
      { result := .ok resume,
        db := dbAfterUser.addAnalytics analytics,
        calls := [ExtCall.enhanceResumeTask resume.id
                    (pyOrStr request.job_description resume.job_description)] }

/-- Guard `not resume.score` of the score endpoint: Python truthiness treats
both a missing score and a stored score of 0 as absent. -/
def scoreFalsy : Option Int → Bool
  | none => true
  | some s => s == 0

/-- get_resume_score: look the resume up scoped by owner (404 when absent);
when the stored score is falsy, call the external scorer, store score,
feedback and learning suggestions on the row and commit; return the row
values. There is no subscription check in this handler. -/
def get_resume_score (resume_id : Nat) (current_user : User) (db : DB)
    (score_resume : String → Option String → Int × String × String) :
    HandlerOut ScoreBody :=
  match findResumeFor db resume_id current_user.id with
  | none =>
    { result := .error ⟨404, "Resume not found"⟩, db := db, calls := [] }
  | some resume =>
    if scoreFalsy resume.score then
      let content := pyOrStrS resume.enhanced_content resume.original_content
      let r := score_resume content resume.job_description
      let resume2 : Resume :=
        { resume with score := some r.1, feedback := some r.2.1,
                      learning_suggestions := some r.2.2 }
      { result := .ok ⟨some r.1, some r.2.1, some r.2.2⟩,
        db := db.setResume resume2,
        calls := [ExtCall.scoreResumeCall content resume.job_description] }
    else
      { result := .ok ⟨resume.score, resume.feedback, resume.learning_suggestions⟩,
        db := db, calls := [] }

/-- generate_cover_letter_endpoint: look the resume up scoped by owner (404
when absent); reject FREE with 403; otherwise call the external generator,
store the cover letter on the row, commit, and log analytics. -/
def generate_cover_letter_endpoint (request : CoverLetterRequest)
    (current_user : User) (db : DB) (now : Nat)
    (generate_cover_letter : String → String → String → String → String) :
    HandlerOut CoverLetterBody :=
  match findResumeFor db request.resume_id current_user.id with
  | none =>
    { result := .error ⟨404, "Resume not found"⟩, db := db, calls := [] }
  | some resume =>
    if current_user.subscription_type = SubscriptionType.FREE then
      { result := .error ⟨403, "Free users cannot generate cover letters. Please upgrade your subscription."⟩,
        db := db, calls := [] }
    else
      let content := pyOrStrS resume.enhanced_content resume.original_content
      let cl := generate_cover_letter content request.job_description
        request.company_name request.position
      let resume2 : Resume := { resume with cover_letter := some cl }
      let analytics : Analytics :=
        { user_id := current_user.id, resume_id := some resume.id,
          action_type := .COVER_LETTER_GENERATE,
          metadata := [("company_name", request.company_name),
                       ("position", request.position)],
          created_at := now }
      { result := .ok ⟨cl⟩,
        db := (db.setResume resume2).addAnalytics analytics,
        calls := [ExtCall.generateCoverLetterCall content
                    request.job_description request.company_name request.position] }

/-- Insertion step of ordering by created_at descending (order_by desc). -/
def insertByCreatedAtDesc (r : Resume) : List Resume → List Resume
  | [] => [r]
  | x :: xs =>
    if x.created_at ≤ r.created_at then r :: x :: xs
    else x :: insertByCreatedAtDesc r xs

/-- Ordering by created_at descending (order_by(Resume.created_at.desc())). -/
def sortByCreatedAtDesc (l : List Resume) : List Resume :=
  l.foldr insertByCreatedAtDesc []

/-- list_resumes: all resume rows of the authenticated user, newest first. -/
def list_resumes (current_user : User) (db : DB) : List Resume :=
  sortByCreatedAtDesc (db.resumes.filter (fun r => r.user_id == current_user.id))

/-- get_resume: the owner-scoped row, or 404. -/
def get_resume (resume_id : Nat) (current_user : User) (db : DB) :
    HandlerOut Resume :=
  match findResumeFor db resume_id current_user.id with
  | none =>
    { result := .error ⟨404, "Resume not found"⟩, db := db, calls := [] }
  | some resume =>
    { result := .ok resume, db := db, calls := [] }

/-- delete_resume: delete the owner-scoped row, or 404. -/
def delete_resume (resume_id : Nat) (current_user : User) (db : DB) :
    HandlerOut MessageBody :=
  match findResumeFor db resume_id current_user.id with
  | none =>
    { result := .error ⟨404, "Resume not found"⟩, db := db, calls := [] }
  | some resume =>
    { result := .ok ⟨"Resume deleted successfully"⟩,
      db := { db with resumes := db.resumes.filter (fun x => !(x.id == resume.id)) },
      calls := [] }

/-- analyze_resume: the whole body runs inside try/except Exception, so any
HTTPException raised inside (the 404 included) is caught and re-raised as a
500 whose detail is str() of the original exception. The external analyzer
(analyze_resume_content, referenced but not defined in the module) is an
abstract function parameter returning the analysis dict. -/
def analyze_resume (resume_id : Option Nat) (current_user : User) (db : DB)
    (now : Nat)
    (analyze_resume_content : String → Option String → List (String × String)) :
    HandlerOut (List (String × String)) :=
  let inner : HandlerOut (List (String × String)) :=
    match resume_id.bind (fun rid => findResumeFor db rid current_user.id) with
    | none =>
      { result := .error ⟨404, "Resume not found"⟩, db := db, calls := [] }
    | some resume =>
      let content := pyOrStrS resume.enhanced_content resume.original_content
      let analysis := analyze_resume_content content resume.job_description
      let analytics : Analytics :=
        { user_id := current_user.id, resume_id := some resume.id,
          action_type := .RESUME_ANALYZE, metadata := [], created_at := now }
      { result := .ok analysis, db := db.addAnalytics analytics,
        calls := [ExtCall.analyzeResumeCall content resume.job_description] }
  match inner.result with
  | .error e =>
    { result := .error ⟨500, strOfExc e⟩, db := db, calls := [] }
  | .ok _ => inner

/-- validate_developer_code: the whole body runs inside try/except Exception,
so the 400 for an invalid code (and any 401 from current-user resolution) is
caught and re-raised as a 500 whose detail is str() of the original
exception. Modelled from the spec: is_valid_developer_code is referenced but
defined nowhere under src, so it is an abstract predicate parameter; the
current-user resolution (app.api.auth.get_current_user, a module not under
src) is modelled by an optional already-resolved user, none standing for a
failed 401 resolution. On success the user is granted PRO with
remaining_enhancements set to -1. -/
def validate_developer_code (code : Option String) (db : DB)
    (is_valid_developer_code : Option String → Bool) (authUser : Option User) :
    HandlerOut MessageBody :=
  let inner : HandlerOut MessageBody :=
    if !(is_valid_developer_code code) then
      { result := .error ⟨400, "Invalid developer code"⟩, db := db, calls := [] }
    else
      match authUser with
      | none =>
        { result := .error credentials_exception, db := db, calls := [] }
      | some current_user =>
        let user2 : User := { current_user with
          subscription_type := SubscriptionType.PRO,
          remaining_enhancements := -1 }
        { result := .ok ⟨"Pro access granted successfully"⟩,
          db := db.setUser user2, calls := [] }
  match inner.result with
  | .error e =>
    { result := .error ⟨500, strOfExc e⟩, db := db, calls := [] }
  | .ok _ => inner

/-! ## Sample rows used by witnesses and counterexamples -/

/-- Concrete FREE-tier user. -/
def freeUser : User :=
  { id := 1, email := "free@example.com", password := get_password_hash "pw1",
    full_name := "Free User", subscription_type := .FREE,
    remaining_enhancements := 0 }

/-- Concrete ONE_TIME-tier user with two enhancements left. -/
def oneTimeUser : User :=
  { id := 2, email := "onetime@example.com", password := get_password_hash "pw2",
    full_name := "One Time User", subscription_type := .ONE_TIME,
    remaining_enhancements := 2 }

/-- Concrete PRO-tier user. -/
def proUser : User :=
  { id := 3, email := "pro@example.com", password := get_password_hash "pw3",
    full_name := "Pro User", subscription_type := .PRO,
    remaining_enhancements := -1 }

/-- Concrete unscored resume owned by the FREE user. -/
def freeResume : Resume :=
  { id := 10, user_id := 1, original_content := "resume text",
    job_description := none, linkedin_url := none, enhanced_content := none,
    score := none, feedback := none, learning_suggestions := none,
    cover_letter := none, created_at := 0 }

/-- Concrete unscored resume owned by the ONE_TIME user. -/
def oneTimeResume : Resume :=
  { freeResume with id := 20, user_id := 2 }

/-- Concrete resume owned by the PRO user with a cached score of 0. -/
def zeroScoreResume : Resume :=
  { freeResume with
    id := 30, user_id := 3, score := some 0,
    feedback := some "old feedback", learning_suggestions := some "old tips" }

/-- Concrete database holding the three users and their resumes. -/
def sampleDB : DB :=
  { users := [freeUser, oneTimeUser, proUser],
    resumes := [freeResume, oneTimeResume, zeroScoreResume],
    versions := [], analytics := [], nextResumeId := 31 }

/-- Concrete external scorer. -/
def constScorer : String → Option String → Int × String × String :=
  fun _ _ => (85, "Good resume", "Keep learning")

/-- Concrete external analyzer. -/
def constAnalyzer : String → Option String → List (String × String) :=
  fun _ _ => [("summary", "ok")]

/-- Concrete developer-code validator. -/
def constValidator : Option String → Bool :=
  fun c => c == some "DEV123"

/-! ## Helper lemmas -/

/-- The head of a filtered list is a member satisfying the predicate. -/
theorem head?_filter_spec {α : Type} (p : α → Bool) (l : List α) (x : α)
    (h : (l.filter p).head? = some x) : x ∈ l ∧ p x = true := by
  induction l with
  | nil => simp [List.filter] at h
  | cons a t ih =>
    by_cases hp : p a
    · rw [List.filter_cons_of_pos hp] at h
      simp at h
      subst h
      exact ⟨List.mem_cons_self a t, hp⟩
    · rw [List.filter_cons_of_neg (by simpa using hp)] at h
      rcases ih h with ⟨hm, hpx⟩
      exact ⟨List.mem_cons_of_mem a hm, hpx⟩

/-- Filtering a list in which nothing satisfies the predicate yields no head. -/
theorem head?_filter_none {α : Type} (p : α → Bool) (l : List α)
    (h : ∀ x ∈ l, p x = false) : (l.filter p).head? = none := by
  have hnil : l.filter p = [] := by
    rw [List.filter_eq_nil_iff]
    intro a ha
    simp [h a ha]
  rw [hnil]
  rfl

/-- A resume found by the owner-scoped lookup is a stored row with the
requested id owned by the requesting user. -/
theorem findResumeFor_some (db : DB) (rid uid : Nat) (r : Resume)
    (h : findResumeFor db rid uid = some r) :
    r ∈ db.resumes ∧ r.id = rid ∧ r.user_id = uid := by
  rcases head?_filter_spec _ _ _ h with ⟨hm, hp⟩
  simp at hp
  exact ⟨hm, hp⟩

/-- When every stored row with the requested id belongs to another user, the
owner-scoped lookup fails. -/
theorem findResumeFor_none_of_foreign (db : DB) (rid uid : Nat)
    (h : ∀ r ∈ db.resumes, r.id = rid → r.user_id ≠ uid) :
    findResumeFor db rid uid = none := by
  apply head?_filter_none
  intro x hx
  by_cases h1 : x.id = rid
  · simp [h1, h x hx h1]
  · simp [h1]

/-- Replacing the rows matching the id of u2 and then looking the id up finds
u2, provided some row with that id existed. -/
theorem filter_head_map_replace (users : List User) (u2 : User) (uid : Nat)
    (hid : u2.id = uid) (u : User)
    (h : (users.filter (fun x => x.id == uid)).head? = some u) :
    ((users.map (fun x => if x.id == u2.id then u2 else x)).filter
      (fun x => x.id == uid)).head? = some u2 := by
  induction users with
  | nil => simp [List.filter] at h
  | cons a t ih =>
    by_cases ha : a.id = uid
    · simp [List.filter, ha, hid]
    · have hmap : (if a.id == u2.id then u2 else a) = a := by
        simp [hid, ha]
      simp only [List.map_cons, hmap]
      rw [List.filter_cons_of_neg (by simp [ha])] at h ⊢
      exact ih h

/-- Analytics appends do not touch the user table. -/
theorem findUserById_addAnalytics (db : DB) (a : Analytics) (uid : Nat) :
    findUserById (db.addAnalytics a) uid = findUserById db uid := rfl

/-- Committing a mutated user object updates the row found by id. -/
theorem findUserById_setUser (db : DB) (u2 : User) (uid : Nat)
    (hid : u2.id = uid) (u : User) (h : findUserById db uid = some u) :
    findUserById (db.setUser u2) uid = some u2 :=
  filter_head_map_replace db.users u2 uid hid u h

/-- Membership is preserved by one descending insertion. -/
theorem mem_insertByCreatedAtDesc (r x : Resume) (l : List Resume) :
    x ∈ insertByCreatedAtDesc r l ↔ x = r ∨ x ∈ l := by
  induction l with
  | nil => simp [insertByCreatedAtDesc]
  | cons a t ih =>
    by_cases hc : a.created_at ≤ r.created_at
    · simp [insertByCreatedAtDesc, hc]
    · simp only [insertByCreatedAtDesc, if_neg hc, List.mem_cons, ih]
      tauto

/-- Membership is preserved by the descending sort of list_resumes. -/
theorem mem_sortByCreatedAtDesc (l : List Resume) (x : Resume) :
    x ∈ sortByCreatedAtDesc l ↔ x ∈ l := by
  induction l with
  | nil => simp [sortByCreatedAtDesc]
  | cons a t ih =>
    simp only [sortByCreatedAtDesc, List.foldr_cons] at *
    rw [mem_insertByCreatedAtDesc, ih]
    simp

/-- Safety predicate of claim C10: every stored ONE_TIME user has a
non-negative enhancement counter. -/
def oneTimeNonneg (db : DB) : Prop :=
  ∀ u ∈ db.users, u.subscription_type = SubscriptionType.ONE_TIME →
    0 ≤ u.remaining_enhancements

/-- The invariant transports along any step that leaves the user table
unchanged. -/
theorem oneTimeNonneg_of_users_eq (db db2 : DB) (h : db2.users = db.users)
    (hinv : oneTimeNonneg db) : oneTimeNonneg db2 := by
  intro u hu
  rw [h] at hu
  exact hinv u hu

/-- Committing a mutated user preserves the invariant when the mutated user
satisfies it. -/
theorem oneTimeNonneg_setUser (db : DB) (u2 : User) (hinv : oneTimeNonneg db)
    (hu2 : u2.subscription_type = SubscriptionType.ONE_TIME →
      0 ≤ u2.remaining_enhancements) :
    oneTimeNonneg (db.setUser u2) := by
  intro x hx hot
  simp only [DB.setUser, List.mem_map] at hx
  rcases hx with ⟨y, hy, hxy⟩
  by_cases hid : y.id == u2.id
  · rw [if_pos hid] at hxy
    subst hxy
    exact hu2 hot
  · rw [if_neg hid] at hxy
    subst hxy
    exact hinv y hy hot

/-! ## Claims -/

/-- C8: reset_password returns the identical response body whether or not a
user row with the given email exists; two runs differing only in the database
(and even the clock) produce indistinguishable responses, the body is the
fixed message, and the database is never modified. -/
theorem C8_reset_password_uniform :
    ∀ email db db2 now now2,
      (reset_password email db now).1 = (reset_password email db2 now2).1 ∧
      (reset_password email db now).1 =
        ⟨"If an account exists with this email, you will receive password reset instructions"⟩ ∧
      (reset_password email db now).2 = db := by
  intro email db db2 now now2
  refine ⟨?_, ?_, ?_⟩ <;>
    · unfold reset_password
      cases findUserByEmail db email <;> cases findUserByEmail db2 email <;> rfl

/-- C9: upload_resume never modifies the user table: for every tier and every
path (the 403 rejections included), the users stored after the call are
exactly the users stored before, so the authenticated user row keeps its
subscription_type and remaining_enhancements. -/
theorem C9_upload_user_frame :
    ∀ rd u db now, (upload_resume rd u db now).db.users = db.users := by
  intro rd u db now
  unfold upload_resume
  split_ifs <;> rfl

/-- C10: the ONE_TIME non-negativity invariant (every stored ONE_TIME user
has remaining_enhancements at least 0) is preserved by every embedded
endpoint: enhance decrements only when the counter is strictly positive,
upload never writes the user table, and validate_developer_code writes -1
only together with the PRO tier. -/
theorem C10_counter_invariant :
    ∀ db, oneTimeNonneg db →
      (∀ rd u now, oneTimeNonneg (upload_resume rd u db now).db) ∧
      (∀ req u now, oneTimeNonneg (enhance_resume_endpoint req u db now).db) ∧
      (∀ rid u scorer, oneTimeNonneg (get_resume_score rid u db scorer).db) ∧
      (∀ req u now gen,
        oneTimeNonneg (generate_cover_letter_endpoint req u db now gen).db) ∧
      (∀ rid u, oneTimeNonneg (get_resume rid u db).db) ∧
      (∀ rid u, oneTimeNonneg (delete_resume rid u db).db) ∧
      (∀ rid u now f, oneTimeNonneg (analyze_resume rid u db now f).db) ∧
      (∀ code valid au, oneTimeNonneg (validate_developer_code code db valid au).db) := by
  intro db hinv
  refine ⟨?_, ?_, ?_, ?_, ?_, ?_, ?_, ?_⟩
  · intro rd u now
    exact oneTimeNonneg_of_users_eq db _ (C9_upload_user_frame rd u db now) hinv
  · intro req u now
    unfold enhance_resume_endpoint
    cases findResumeFor db req.resume_id u.id with
    | none => exact hinv
    | some resume =>
      split_ifs with h1 h2 h3
      · exact hinv
      · exact hinv
      · refine oneTimeNonneg_of_users_eq (db.setUser _) _ rfl ?_
        refine oneTimeNonneg_setUser db _ hinv ?_
        intro _
        have : ¬ u.remaining_enhancements ≤ 0 := fun hle => h2 ⟨h3, hle⟩
        show 0 ≤ u.remaining_enhancements - 1
        omega
      · exact hinv
  · intro rid u scorer
    unfold get_resume_score
    cases findResumeFor db rid u.id with
    | none => exact hinv
    | some resume =>
      dsimp only
      split_ifs <;> exact oneTimeNonneg_of_users_eq db _ rfl hinv
  · intro req u now gen
    unfold generate_cover_letter_endpoint
    cases findResumeFor db req.resume_id u.id with
    | none => exact hinv
    | some resume =>
      dsimp only
      split_ifs <;> exact oneTimeNonneg_of_users_eq db _ rfl hinv
  · intro rid u
    unfold get_resume
    cases findResumeFor db rid u.id <;> exact hinv
  · intro rid u
    unfold delete_resume
    cases findResumeFor db rid u.id <;> exact hinv
  · intro rid u now f
    unfold analyze_resume
    cases rid.bind (fun r => findResumeFor db r u.id) <;> exact hinv
  · intro code valid au
    unfold validate_developer_code
    split_ifs with h1
    · exact hinv
    · cases au with
      | none => exact hinv
      | some current_user =>
        refine oneTimeNonneg_setUser db _ hinv ?_
        intro hot
        exact absurd hot (by simp)

/-- Witness for C10 at a concrete database satisfying the invariant. -/
theorem C10_counter_invariant_witness :
    oneTimeNonneg
      (enhance_resume_endpoint ⟨20, none⟩ oneTimeUser sampleDB 7).db :=
  (C10_counter_invariant sampleDB (by unfold oneTimeNonneg; decide)).2.1
    ⟨20, none⟩ oneTimeUser 7

/-- C1 counterexample: get_resume_score performs no subscription check, so a
FREE user who owns an unscored resume is not rejected with 403: the handler
invokes the external AI scorer and answers 200 with the fresh score. -/
theorem C1_counterexample :
    freeUser.subscription_type = SubscriptionType.FREE ∧
    (get_resume_score 10 freeUser sampleDB constScorer).calls =
      [ExtCall.scoreResumeCall "resume text" none] ∧
    (get_resume_score 10 freeUser sampleDB constScorer).result =
      .ok ⟨some 85, some "Good resume", some "Keep learning"⟩ := by
  refine ⟨rfl, ?_, ?_⟩ <;> rfl

/-- C1 amended: of the four paid endpoints only upload_resume,
enhance_resume_endpoint and generate_cover_letter_endpoint reject a FREE
user with 403 before the paid action (no external call or background task,
no database change, and in particular no resume creation); get_resume_score
has no subscription check at all. -/
theorem C1_free_tier_gating :
    (∀ rd u db now, u.subscription_type = SubscriptionType.FREE →
      (upload_resume rd u db now).result = .error ⟨403,
        "Free users cannot upload resumes. Please upgrade your subscription."⟩ ∧
      (upload_resume rd u db now).db = db ∧
      (upload_resume rd u db now).calls = []) ∧
    (∀ req u db now, u.subscription_type = SubscriptionType.FREE →
      (enhance_resume_endpoint req u db now).db = db ∧
      (enhance_resume_endpoint req u db now).calls = [] ∧
      (findResumeFor db req.resume_id u.id ≠ none →
        (enhance_resume_endpoint req u db now).result = .error ⟨403,
          "Free users cannot enhance resumes. Please upgrade your subscription."⟩)) ∧
    (∀ req u db now gen, u.subscription_type = SubscriptionType.FREE →
      (generate_cover_letter_endpoint req u db now gen).db = db ∧
      (generate_cover_letter_endpoint req u db now gen).calls = [] ∧
      (findResumeFor db req.resume_id u.id ≠ none →
        (generate_cover_letter_endpoint req u db now gen).result = .error ⟨403,
          "Free users cannot generate cover letters. Please upgrade your subscription."⟩)) := by
  refine ⟨?_, ?_, ?_⟩
  · intro rd u db now h
    unfold upload_resume
    rw [if_pos h]
    exact ⟨rfl, rfl, rfl⟩
  · intro req u db now h
    unfold enhance_resume_endpoint
    cases hf : findResumeFor db req.resume_id u.id with
    | none => exact ⟨rfl, rfl, fun hc => absurd rfl hc⟩
    | some resume =>
      dsimp only
      rw [if_pos h]
      exact ⟨rfl, rfl, fun _ => rfl⟩
  · intro req u db now gen h
    unfold generate_cover_letter_endpoint
    cases hf : findResumeFor db req.resume_id u.id with
    | none => exact ⟨rfl, rfl, fun hc => absurd rfl hc⟩
    | some resume =>
      dsimp only
      rw [if_pos h]
      exact ⟨rfl, rfl, fun _ => rfl⟩

/-- Witness for C1 at concrete FREE-tier inputs. -/
theorem C1_free_tier_gating_witness :
    (upload_resume ⟨"cv", none, none⟩ freeUser sampleDB 3).result = .error ⟨403,
      "Free users cannot upload resumes. Please upgrade your subscription."⟩ ∧
    (enhance_resume_endpoint ⟨10, none⟩ freeUser sampleDB 3).result = .error ⟨403,
      "Free users cannot enhance resumes. Please upgrade your subscription."⟩ :=
  ⟨(C1_free_tier_gating.1 ⟨"cv", none, none⟩ freeUser sampleDB 3 rfl).1,
   (C1_free_tier_gating.2.1 ⟨10, none⟩ freeUser sampleDB 3 rfl).2.2
     (by decide)⟩

/-- C2: for a ONE_TIME user enhancing a resume they own, a strictly positive
counter means success with the counter decremented by exactly one in the
committed user row, and an exhausted counter means 403 with the database
(the user row included) left untouched. -/
theorem C2_one_time_enhance :
    ∀ req u db now r, u.subscription_type = SubscriptionType.ONE_TIME →
      findResumeFor db req.resume_id u.id = some r →
      ((0 < u.remaining_enhancements →
        (enhance_resume_endpoint req u db now).result = .ok r ∧
        (∀ u0, findUserById db u.id = some u0 →
          findUserById (enhance_resume_endpoint req u db now).db u.id =
            some { u with
              remaining_enhancements := u.remaining_enhancements - 1 })) ∧
      (u.remaining_enhancements ≤ 0 →
        (enhance_resume_endpoint req u db now).result = .error ⟨403,
          "No remaining enhancements. Please purchase more or upgrade to Pro."⟩ ∧
        (enhance_resume_endpoint req u db now).db = db)) := by
  intro req u db now r hot hf
  unfold enhance_resume_endpoint
  rw [hf]
  dsimp only
  rw [if_neg (by simp [hot])]
  constructor
  · intro hpos
    rw [if_neg (fun hc => absurd hc.2 (by omega))]
    dsimp only
    rw [if_pos hot]
    refine ⟨rfl, ?_⟩
    intro u0 hu0
    rw [findUserById_addAnalytics]
    exact findUserById_setUser db _ u.id rfl u0 hu0
  · intro hz
    rw [if_pos ⟨hot, hz⟩]
    exact ⟨rfl, rfl⟩

/-- Witness for C2 at the concrete ONE_TIME user with two enhancements. -/
theorem C2_one_time_enhance_witness :
    (enhance_resume_endpoint ⟨20, none⟩ oneTimeUser sampleDB 5).result =
      .ok oneTimeResume ∧
    findUserById (enhance_resume_endpoint ⟨20, none⟩ oneTimeUser sampleDB 5).db 2 =
      some { oneTimeUser with remaining_enhancements := 1 } := by
  have h := (C2_one_time_enhance ⟨20, none⟩ oneTimeUser sampleDB 5 oneTimeResume
    rfl (by decide)).1 (by decide)
  exact ⟨h.1, h.2 oneTimeUser (by decide)⟩

/-- C3 counterexample: both handlers run their bodies inside a broad
try/except that catches the typed HTTPException they raise, so a missing
resume makes analyze_resume answer 500 (wrapping the 404 text), not 404, and
an invalid code makes validate_developer_code answer 500 (wrapping the 400
text), not 400. -/
theorem C3_counterexample :
    (analyze_resume (some 99) freeUser sampleDB 0 constAnalyzer).result =
      .error ⟨500, "404: Resume not found"⟩ ∧
    (analyze_resume (some 99) freeUser sampleDB 0 constAnalyzer).result ≠
      .error ⟨404, "Resume not found"⟩ ∧
    (validate_developer_code (some "WRONG") sampleDB constValidator
      (some freeUser)).result = .error ⟨500, "400: Invalid developer code"⟩ ∧
    (validate_developer_code (some "WRONG") sampleDB constValidator
      (some freeUser)).result ≠ .error ⟨400, "Invalid developer code"⟩ := by
  refine ⟨rfl, by decide, rfl, by decide⟩

/-- C3 amended: the domain violations of analyze_resume and
validate_developer_code do raise their typed 404/400 errors, but the
surrounding except-Exception clause re-surfaces each as HTTP 500 whose detail
is the str() of the original exception; the database is left unchanged. -/
theorem C3_exception_wrapping :
    (∀ rid u db now f,
      rid.bind (fun i => findResumeFor db i u.id) = none →
      (analyze_resume rid u db now f).result =
        .error ⟨500, "404: Resume not found"⟩ ∧
      (analyze_resume rid u db now f).db = db) ∧
    (∀ code db valid au, valid code = false →
      (validate_developer_code code db valid au).result =
        .error ⟨500, "400: Invalid developer code"⟩ ∧
      (validate_developer_code code db valid au).db = db) := by
  constructor
  · intro rid u db now f hf
    unfold analyze_resume
    rw [hf]
    exact ⟨rfl, rfl⟩
  · intro code db valid au hv
    unfold validate_developer_code
    rw [hv]
    exact ⟨rfl, rfl⟩

/-- Witness for C3 amended at concrete inputs. -/
theorem C3_exception_wrapping_witness :
    (analyze_resume (some 77) proUser sampleDB 1 constAnalyzer).result =
      .error ⟨500, "404: Resume not found"⟩ ∧
    (validate_developer_code none sampleDB constValidator (some proUser)).result =
      .error ⟨500, "400: Invalid developer code"⟩ :=
  ⟨(C3_exception_wrapping.1 (some 77) proUser sampleDB 1 constAnalyzer
      (by decide)).1,
   (C3_exception_wrapping.2 none sampleDB constValidator (some proUser)
      (by decide)).1⟩

/-- Every resume row with the requested id belongs to some other user. -/
def noOwnedResume (db : DB) (rid uid : Nat) : Prop :=
  ∀ r ∈ db.resumes, r.id = rid → r.user_id ≠ uid

/-- C4: the resume-scoped endpoints only ever return or operate on rows
owned by the authenticated user: a successful get, enhance or list only
yields rows whose user_id is the caller id, and when every row with the
requested id belongs to another user, get, enhance, score, cover-letter and
delete answer 404 with the database unchanged and no external call — never
the foreign data. -/
theorem C4_owner_scoping :
    (∀ rid u db r, (get_resume rid u db).result = .ok r → r.user_id = u.id) ∧
    (∀ rid u db, noOwnedResume db rid u.id →
      (get_resume rid u db).result = .error ⟨404, "Resume not found"⟩) ∧
    (∀ u db r, r ∈ list_resumes u db → r.user_id = u.id) ∧
    (∀ req u db now r,
      (enhance_resume_endpoint req u db now).result = .ok r →
      r.user_id = u.id) ∧
    (∀ req u db now, noOwnedResume db req.resume_id u.id →
      (enhance_resume_endpoint req u db now).result =
        .error ⟨404, "Resume not found"⟩ ∧
      (enhance_resume_endpoint req u db now).db = db ∧
      (enhance_resume_endpoint req u db now).calls = []) ∧
    (∀ rid u db scorer, noOwnedResume db rid u.id →
      (get_resume_score rid u db scorer).result =
        .error ⟨404, "Resume not found"⟩ ∧
      (get_resume_score rid u db scorer).db = db ∧
      (get_resume_score rid u db scorer).calls = []) ∧
    (∀ req u db now gen, noOwnedResume db req.resume_id u.id →
      (generate_cover_letter_endpoint req u db now gen).result =
        .error ⟨404, "Resume not found"⟩ ∧
      (generate_cover_letter_endpoint req u db now gen).db = db ∧
      (generate_cover_letter_endpoint req u db now gen).calls = []) ∧
    (∀ rid u db, noOwnedResume db rid u.id →
      (delete_resume rid u db).result = .error ⟨404, "Resume not found"⟩ ∧
      (delete_resume rid u db).db = db) := by
  refine ⟨?_, ?_, ?_, ?_, ?_, ?_, ?_, ?_⟩
  · intro rid u db r h
    unfold get_resume at h
    cases hf : findResumeFor db rid u.id with
    | none => rw [hf] at h; exact absurd h (by simp)
    | some resume =>
      rw [hf] at h
      simp only [Except.ok.injEq] at h
      subst h
      exact (findResumeFor_some db rid u.id resume hf).2.2
  · intro rid u db hno
    unfold get_resume
    rw [findResumeFor_none_of_foreign db rid u.id hno]
  · intro u db r h
    unfold list_resumes at h
    rw [mem_sortByCreatedAtDesc] at h
    have := List.of_mem_filter h
    simpa using this
  · intro req u db now r h
    unfold enhance_resume_endpoint at h
    cases hf : findResumeFor db req.resume_id u.id with
    | none => rw [hf] at h; exact absurd h (by simp)
    | some resume =>
      rw [hf] at h
      dsimp only at h
      split_ifs at h <;> simp at h <;>
        (subst h; exact (findResumeFor_some db req.resume_id u.id resume hf).2.2)
  · intro req u db now hno
    unfold enhance_resume_endpoint
    rw [findResumeFor_none_of_foreign db req.resume_id u.id hno]
    exact ⟨rfl, rfl, rfl⟩
  · intro rid u db scorer hno
    unfold get_resume_score
    rw [findResumeFor_none_of_foreign db rid u.id hno]
    exact ⟨rfl, rfl, rfl⟩
  · intro req u db now gen hno
    unfold generate_cover_letter_endpoint
    rw [findResumeFor_none_of_foreign db req.resume_id u.id hno]
    exact ⟨rfl, rfl, rfl⟩
  · intro rid u db hno
    unfold delete_resume
    rw [findResumeFor_none_of_foreign db rid u.id hno]
    exact ⟨rfl, rfl⟩

/-- Witness for C4: the FREE user requesting the ONE_TIME user resume (id 20)
gets 404, never the foreign row. -/
theorem C4_owner_scoping_witness :
    (get_resume 20 freeUser sampleDB).result =
      .error ⟨404, "Resume not found"⟩ ∧
    (delete_resume 20 freeUser sampleDB).result =
      .error ⟨404, "Resume not found"⟩ :=
  ⟨C4_owner_scoping.2.1 20 freeUser sampleDB
    (by unfold noOwnedResume; decide),
   (C4_owner_scoping.2.2.2.2.2.2.2 20 freeUser sampleDB
    (by unfold noOwnedResume; decide)).1⟩

/-- C5: authentication fails with 401 in exactly the listed cases — signin
with an unknown email or a non-verifying password, get_current_user with a
token that fails decoding (wrong signature key or expired), with a payload
lacking the sub claim, or with a subject matching no user row — and succeeds
in every remaining case. -/
theorem C5_auth_failures :
    (∀ username password db now,
      findUserByEmail db username = none →
      signin username password db now =
        .error ⟨401, "Incorrect email or password"⟩) ∧
    (∀ username password db now user,
      findUserByEmail db username = some user →
      verify_password password user.password = false →
      signin username password db now =
        .error ⟨401, "Incorrect email or password"⟩) ∧
    (∀ username password db now user,
      findUserByEmail db username = some user →
      verify_password password user.password = true →
      signin username password db now =
        .ok ⟨create_access_token { sub := some user.id }
              (some (ACCESS_TOKEN_EXPIRE_MINUTES * 60)) now, "bearer"⟩) ∧
    (∀ token db now, jwtDecode token SECRET_KEY now = none →
      get_current_user token db now = .error credentials_exception) ∧
    (∀ token db now p, jwtDecode token SECRET_KEY now = some p →
      p.sub = none →
      get_current_user token db now = .error credentials_exception) ∧
    (∀ token db now p uid, jwtDecode token SECRET_KEY now = some p →
      p.sub = some uid → findUserById db uid = none →
      get_current_user token db now = .error credentials_exception) ∧
    (∀ token db now p uid user, jwtDecode token SECRET_KEY now = some p →
      p.sub = some uid → findUserById db uid = some user →
      get_current_user token db now = .ok user) := by
  refine ⟨?_, ?_, ?_, ?_, ?_, ?_, ?_⟩
  · intro username password db now hf
    unfold signin
    rw [hf]
  · intro username password db now user hf hv
    unfold signin
    rw [hf]
    dsimp only
    rw [if_neg (by simp [hv])]
  · intro username password db now user hf hv
    unfold signin
    rw [hf]
    dsimp only
    rw [if_pos (by simp [hv])]
  · intro token db now hd
    unfold get_current_user
    rw [hd]
  · intro token db now p hd hs
    unfold get_current_user
    rw [hd]
    dsimp only
    rw [hs]
  · intro token db now p uid hd hs hu
    unfold get_current_user
    rw [hd]
    dsimp only
    rw [hs]
    dsimp only
    rw [hu]
  · intro token db now p uid user hd hs hu
    unfold get_current_user
    rw [hd]
    dsimp only
    rw [hs]
    dsimp only
    rw [hu]

/-- Witness for C5: wrong password, forged token and expired token at
concrete inputs. -/
theorem C5_auth_failures_witness :
    signin "free@example.com" "wrong" sampleDB 100 =
      .error ⟨401, "Incorrect email or password"⟩ ∧
    get_current_user ⟨"other-key", { sub := some 1, exp := 1000 }⟩ sampleDB 10 =
      .error credentials_exception ∧
    signin "free@example.com" "pw1" sampleDB 100 =
      .ok ⟨create_access_token { sub := some 1 }
            (some (ACCESS_TOKEN_EXPIRE_MINUTES * 60)) 100, "bearer"⟩ :=
  ⟨C5_auth_failures.2.1 "free@example.com" "wrong" sampleDB 100 freeUser
      (by decide) (by decide),
   C5_auth_failures.2.2.2.1 ⟨"other-key", { sub := some 1, exp := 1000 }⟩
      sampleDB 10 (by decide),
   C5_auth_failures.2.2.1 "free@example.com" "pw1" sampleDB 100 freeUser
      (by decide) (by decide)⟩

/-- C6 counterexample: a resume whose cached score is 0 counts as unscored to
the Python truthiness test, so the handler calls the external scorer again,
overwrites the stored feedback and returns the fresh values — refuting the
claimed equivalence with score absence. -/
theorem C6_counterexample :
    zeroScoreResume.score = some 0 ∧
    (get_resume_score 30 proUser sampleDB constScorer).calls =
      [ExtCall.scoreResumeCall "resume text" none] ∧
    (get_resume_score 30 proUser sampleDB constScorer).result =
      .ok ⟨some 85, some "Good resume", some "Keep learning"⟩ ∧
    (get_resume_score 30 proUser sampleDB constScorer).db ≠ sampleDB := by
  refine ⟨rfl, rfl, rfl, by decide⟩

/-- C6 amended: get_resume_score calls the external scorer iff the stored
score is falsy (absent or zero); a truthy cached score is returned with its
stored feedback and suggestions with no call and no database change, and a
falsy one triggers the call, the computed values are committed on the row and
returned. -/
theorem C6_score_caching :
    ∀ rid u db scorer r, findResumeFor db rid u.id = some r →
      ((scoreFalsy r.score = false →
        (get_resume_score rid u db scorer).result =
          .ok ⟨r.score, r.feedback, r.learning_suggestions⟩ ∧
        (get_resume_score rid u db scorer).db = db ∧
        (get_resume_score rid u db scorer).calls = []) ∧
      (scoreFalsy r.score = true →
        (get_resume_score rid u db scorer).calls =
          [ExtCall.scoreResumeCall
            (pyOrStrS r.enhanced_content r.original_content)
            r.job_description] ∧
        (get_resume_score rid u db scorer).result =
          .ok ⟨some (scorer (pyOrStrS r.enhanced_content r.original_content)
                  r.job_description).1,
               some (scorer (pyOrStrS r.enhanced_content r.original_content)
                  r.job_description).2.1,
               some (scorer (pyOrStrS r.enhanced_content r.original_content)
                  r.job_description).2.2⟩ ∧
        (get_resume_score rid u db scorer).db =
          db.setResume { r with
            score := some (scorer (pyOrStrS r.enhanced_content r.original_content)
              r.job_description).1,
            feedback := some (scorer (pyOrStrS r.enhanced_content r.original_content)
              r.job_description).2.1,
            learning_suggestions :=
              some (scorer (pyOrStrS r.enhanced_content r.original_content)
                r.job_description).2.2 })) := by
  intro rid u db scorer r hf
  unfold get_resume_score
  rw [hf]
  dsimp only
  constructor
  · intro hcase
    rw [if_neg (by simp [hcase])]
    exact ⟨rfl, rfl, rfl⟩
  · intro hcase
    rw [if_pos hcase]
    exact ⟨rfl, rfl, rfl⟩

/-- Witness for C6 amended: the cached branch at a resume scored 70. -/
theorem C6_score_caching_witness :
    (get_resume_score 40 proUser
      { sampleDB with resumes := [{ zeroScoreResume with id := 40, score := some 70 }] }
      constScorer).result =
      .ok ⟨some 70, some "old feedback", some "old tips"⟩ ∧
    (get_resume_score 40 proUser
      { sampleDB with resumes := [{ zeroScoreResume with id := 40, score := some 70 }] }
      constScorer).calls = [] := by
  have h := (C6_score_caching 40 proUser
    { sampleDB with resumes := [{ zeroScoreResume with id := 40, score := some 70 }] }
    constScorer { zeroScoreResume with id := 40, score := some 70 }
    (by decide)).1 (by decide)
  exact ⟨h.1, h.2.2⟩

/-- C7: every token issued by signin expires exactly 30 minutes (the
configured ACCESS_TOKEN_EXPIRE_MINUTES) after issuance, and once that window
has elapsed get_current_user rejects it with the 401 credentials
exception, whatever database it is presented against. -/
theorem C7_token_expiry :
    ∀ username password db now tok,
      signin username password db now = .ok tok →
      tok.access_token.claims.exp = now + ACCESS_TOKEN_EXPIRE_MINUTES * 60 ∧
      (∀ db2 later, now + ACCESS_TOKEN_EXPIRE_MINUTES * 60 ≤ later →
        get_current_user tok.access_token db2 later =
          .error credentials_exception) := by
  intro username password db now tok h
  unfold signin at h
  cases hf : findUserByEmail db username with
  | none => rw [hf] at h; exact absurd h (by simp)
  | some user =>
    rw [hf] at h
    dsimp only at h
    split_ifs at h with hv
    · simp only [Except.ok.injEq] at h
      subst h
      refine ⟨rfl, ?_⟩
      intro db2 later hlater
      have hdec : jwtDecode (create_access_token { sub := some user.id }
          (some (ACCESS_TOKEN_EXPIRE_MINUTES * 60)) now) SECRET_KEY later =
          none := by
        have hcond : ¬(SECRET_KEY = SECRET_KEY ∧
            later < now + ACCESS_TOKEN_EXPIRE_MINUTES * 60) := by
          intro hcon
          have h2 := hcon.2
          omega
        exact if_neg hcond
      unfold get_current_user
      dsimp only
      rw [hdec]

/-- Witness for C7 at a concrete signin. -/
theorem C7_token_expiry_witness :
    ∃ tok, signin "pro@example.com" "pw3" sampleDB 1000 = .ok tok ∧
      tok.access_token.claims.exp = 1000 + ACCESS_TOKEN_EXPIRE_MINUTES * 60 ∧
      get_current_user tok.access_token sampleDB 2800 =
        .error credentials_exception := by
  refine ⟨⟨create_access_token { sub := some 3 }
    (some (ACCESS_TOKEN_EXPIRE_MINUTES * 60)) 1000, "bearer"⟩, by decide, ?_⟩
  have h := C7_token_expiry "pro@example.com" "pw3" sampleDB 1000
    ⟨create_access_token { sub := some 3 }
      (some (ACCESS_TOKEN_EXPIRE_MINUTES * 60)) 1000, "bearer"⟩ (by decide)
  exact ⟨h.1, h.2 sampleDB 2800 (by decide)⟩

end CVPerfect
